import Mathlib

/-!
Shallow embedding of the gesture-recognition and bubble-simulation core of
the paopao repository (src/components/MicroverseCanvas.tsx and the unnamed
rendering variants src/unnamed/part_000 .. part_002, which share one
simulation core). Numbers are modelled by the real numbers; Math.hypot,
Math.sqrt and Math.PI map to Real.sqrt and Real.pi. Randomly drawn values
(Math.random results) are passed as explicit parameters. Cosmetic fields of
a bubble (hue, phase, wobble, rotation, contentSeed, element) play no role
in any verified property and are omitted from the record.
-/

namespace Paopao

/-- GestureType enum from src/unnamed/part_005 (types). -/
inductive GestureType where
  | NONE
  | POINT
  | OPEN_HAND
  | PINCH
  | FIST
deriving DecidableEq

/-- BubbleState enum from src/unnamed/part_005 (types). -/
inductive BubbleState where
  | FLOATING
  | GROWING
  | MERGING
  | FROZEN
  | MELTING
  | EVAPORATING
  | SHATTERED
  | POPPING
deriving DecidableEq

/-- BubbleTheme enum from src/unnamed/part_004 and part_005 (types). -/
inductive BubbleTheme where
  | NEBULA
  | FOREST
  | CRYSTAL
  | ABSTRACT
  | QUANTUM
  | CYBER
deriving DecidableEq

/-- Burst labels passed to createParticles in MicroverseCanvas.tsx line 1062. -/
inductive BurstType where
  | SHATTER
  | MELT
  | EVAPORATE
  | POPPING
deriving DecidableEq

/-- A 2D point (Vector2 in the source). -/
abbrev Point : Type := ℝ × ℝ

/-- Math.hypot distance used by the dist helper of MicroverseCanvas.tsx. -/
noncomputable def dist (p q : Point) : ℝ :=
  Real.sqrt ((p.1 - q.1) ^ 2 + (p.2 - q.2) ^ 2)

/-- GRAVITY from src/constants.ts. -/
noncomputable def GRAVITY : ℝ := 0.05

/-- AIR_RESISTANCE from src/constants.ts. -/
noncomputable def AIR_RESISTANCE : ℝ := 0.98

/-- MediaPipe landmark indices from src/constants.ts. A hand pose is the
array of 21 landmark points; it is modelled as a function from the index. -/
def WRIST : ℕ := 0

/-- Landmark index of the thumb tip (src/constants.ts). -/
def THUMB_TIP : ℕ := 4

/-- Landmark index of the index-finger MCP joint (src/constants.ts). -/
def INDEX_MCP : ℕ := 5

/-- Landmark index of the index-finger tip (src/constants.ts). -/
def INDEX_TIP : ℕ := 8

/-- Landmark index of the middle-finger MCP joint (src/constants.ts). -/
def MIDDLE_MCP : ℕ := 9

/-- Landmark index of the middle-finger tip (src/constants.ts). -/
def MIDDLE_TIP : ℕ := 12

/-- Landmark index of the ring-finger MCP joint (src/constants.ts). -/
def RING_MCP : ℕ := 13

/-- Landmark index of the ring-finger tip (src/constants.ts). -/
def RING_TIP : ℕ := 16

/-- Landmark index of the pinky MCP joint (src/constants.ts). -/
def PINKY_MCP : ℕ := 17

/-- Landmark index of the pinky tip (src/constants.ts). -/
def PINKY_TIP : ℕ := 20

/-- A set of hand landmarks in normalized [0,1] coordinates, indexed as in
the source arrays (only indices 0..20 are ever consulted). -/
abbrev Landmarks : Type := ℕ → Point

/-- Screen-space distance between two landmarks, as computed by getP and
dist2d inside determineGesture of src/unnamed/part_001 lines 650-651. -/
noncomputable def p1dist (l : Landmarks) (width height : ℝ) (i j : ℕ) : ℝ :=
  dist ((l i).1 * width, (l i).2 * height) ((l j).1 * width, (l j).2 * height)

/-- Curled-finger count of determineGesture in src/unnamed/part_001
lines 656-660: one per non-thumb finger whose tip-to-MCP screen distance is
below 50. -/
noncomputable def p1curledCount (l : Landmarks) (width height : ℝ) : ℕ :=
  (if p1dist l width height INDEX_TIP INDEX_MCP < 50 then 1 else 0) +
  (if p1dist l width height MIDDLE_TIP MIDDLE_MCP < 50 then 1 else 0) +
  (if p1dist l width height RING_TIP RING_MCP < 50 then 1 else 0) +
  (if p1dist l width height PINKY_TIP PINKY_MCP < 50 then 1 else 0)

/-- determineGesture from src/unnamed/part_001 lines 648-677. Note the
order: the FIST test (curledCount at least 3) comes before the pinch test. -/
noncomputable def detGestureP1 (l : Landmarks) (width height : ℝ) : GestureType :=
  if 3 ≤ p1curledCount l width height then .FIST
  else if p1dist l width height THUMB_TIP INDEX_TIP < 50 then .PINCH
  else
    if p1dist l width height INDEX_TIP INDEX_MCP > 60 ∧
        (p1dist l width height MIDDLE_TIP MIDDLE_MCP < 80 ∨
          p1dist l width height INDEX_TIP INDEX_MCP >
            p1dist l width height MIDDLE_TIP MIDDLE_MCP + 40) then .POINT
    else .OPEN_HAND

/-- Finger-extension test of determineGesture in
src/components/MicroverseCanvas.tsx lines 883-889: the tip is farther from
the wrist than the MCP joint, compared on squared distances. -/
def isExtended (l : Landmarks) (tipIdx mcpIdx : ℕ) : Prop :=
  ((l mcpIdx).1 - (l WRIST).1) ^ 2 + ((l mcpIdx).2 - (l WRIST).2) ^ 2 <
    ((l tipIdx).1 - (l WRIST).1) ^ 2 + ((l tipIdx).2 - (l WRIST).2) ^ 2

noncomputable instance (l : Landmarks) (tipIdx mcpIdx : ℕ) : Decidable (isExtended l tipIdx mcpIdx) := by
  unfold isExtended
  infer_instance

/-- determineGesture from src/components/MicroverseCanvas.tsx lines 878-912:
the pinch test (normalized distance below PINCH_THRESHOLD = 0.05) comes
first and takes priority. -/
noncomputable def detGestureCanvas (l : Landmarks) : GestureType :=
  if dist (l THUMB_TIP) (l INDEX_TIP) < 0.05 then .PINCH
  else if ¬isExtended l INDEX_TIP INDEX_MCP ∧ ¬isExtended l MIDDLE_TIP MIDDLE_MCP ∧
      ¬isExtended l RING_TIP RING_MCP ∧ ¬isExtended l PINKY_TIP PINKY_MCP then .FIST
  else if isExtended l INDEX_TIP INDEX_MCP ∧ isExtended l MIDDLE_TIP MIDDLE_MCP ∧
      isExtended l RING_TIP RING_MCP ∧ isExtended l PINKY_TIP PINKY_MCP then .OPEN_HAND
  else if isExtended l INDEX_TIP INDEX_MCP ∧ ¬isExtended l RING_TIP RING_MCP ∧
      ¬isExtended l PINKY_TIP PINKY_MCP then .POINT
  else .NONE

/-- History ring capacity, GESTURE_HISTORY_SIZE = 4 in
src/components/MicroverseCanvas.tsx line 876 (the variant in
src/unnamed/part_001 line 30 uses 6; the push model below takes the
capacity as a parameter). -/
def GESTURE_HISTORY_SIZE : ℕ := 4

/-- Push of a raw gesture into the history ring: gestureHistory.push, then
shift when the length exceeds the capacity (MicroverseCanvas.tsx
lines 1622-1623). -/
def pushHistory (cap : ℕ) (hist : List GestureType) (g : GestureType) : List GestureType :=
  let h := hist ++ [g]
  if cap < h.length then h.tail else h

/-- Key list of the counts record built by the forEach at
MicroverseCanvas.tsx line 1626: JavaScript object keys enumerate in
insertion order, which is the order of first occurrence in the history. -/
def firstSeen (l : List GestureType) : List GestureType :=
  l.foldl (fun acc g => if g ∈ acc then acc else acc ++ [g]) []

/-- One step of the max-count scan at MicroverseCanvas.tsx lines 1629-1631:
update the running (stableGesture, maxCount) pair only on a strictly larger
count. -/
def stableStep (hist : List GestureType) (p : GestureType × ℕ) (g : GestureType) :
    GestureType × ℕ :=
  if p.2 < hist.count g then (g, hist.count g) else p

/-- Stable gesture computed at MicroverseCanvas.tsx lines 1625-1631: start
from (rawGesture, 0) and scan the counts entries in insertion order. -/
def stableGesture (raw : GestureType) (hist : List GestureType) : GestureType :=
  ((firstSeen hist).foldl (stableStep hist) (raw, 0)).1

/-- Bubble record (src/unnamed/part_005 types and createBubble at
MicroverseCanvas.tsx lines 1004-1033). The random string id is modelled by
a natural number; purely cosmetic fields (hue, phase, wobble, rotation,
rotationSpeed, contentSeed, element) are omitted. -/
structure Bubble where
  id : ℕ
  x : ℝ
  y : ℝ
  vx : ℝ
  vy : ℝ
  radius : ℝ
  mass : ℝ
  theme : BubbleTheme
  state : BubbleState
  stateTimer : ℝ
  creationTime : ℝ
  isTrail : Bool

/-- createBubble main bubble, MicroverseCanvas.tsx lines 1013-1033. The
radius (either the argument r or the random draw) and the drawn theme are
passed in; mass is radius * radius, state starts FLOATING with stateTimer
0, creationTime is the current clock value. -/
def createBubble (idv : ℕ) (x y radius vx vy : ℝ) (theme : BubbleTheme)
    (tNow : ℝ) (isTrail : Bool) : Bubble :=
  { id := idv, x := x, y := y, vx := vx, vy := vy, radius := radius,
    mass := radius * radius, theme := theme, state := .FLOATING,
    stateTimer := 0, creationTime := tNow, isTrail := isTrail }

/-- Clustered satellite bubble, MicroverseCanvas.tsx lines 1039-1056:
spread of the main bubble with fresh id, position offset by the drawn angle
at distance radius + smallR * 0.6, small random radius smallR, jittered
velocity, mass smallR * smallR. -/
noncomputable def createSatellite (main : Bubble) (idv : ℕ) (angle smallR jx jy tNow : ℝ) :
    Bubble :=
  { main with
    id := idv,
    x := main.x + Real.cos angle * (main.radius + smallR * 0.6),
    y := main.y + Real.sin angle * (main.radius + smallR * 0.6),
    radius := smallR,
    vx := main.vx + jx,
    vy := main.vy + jy,
    mass := smallR * smallR,
    creationTime := tNow }

/-- Merge of a colliding pair, MicroverseCanvas.tsx lines 1856-1869 and
src/unnamed/part_001 lines 1046-1060: b1 (the earlier element of the
radius-sorted list) survives with mass-weighted position and velocity, the
area-sum radius clamped at 220, and the summed mass. -/
noncomputable def mergeBubbles (b1 b2 : Bubble) : Bubble :=
  let totalMass := b1.mass + b2.mass
  let newArea := Real.pi * b1.radius ^ 2 + Real.pi * b2.radius ^ 2
  let newRadius := Real.sqrt (newArea / Real.pi)
  { b1 with
    x := (b1.x * b1.mass + b2.x * b2.mass) / totalMass,
    y := (b1.y * b1.mass + b2.y * b2.mass) / totalMass,
    vx := (b1.vx * b1.mass + b2.vx * b2.mass) / totalMass,
    vy := (b1.vy * b1.mass + b2.vy * b2.mass) / totalMass,
    radius := min newRadius 220,
    mass := totalMass }

/-- Merge trigger distance of the pairwise scan: d below 0.4 times the
radius sum (MicroverseCanvas.tsx line 1856). -/
noncomputable def mergeCondition (b1 b2 : Bubble) : Prop :=
  dist (b1.x, b1.y) (b2.x, b2.y) < (b1.radius + b2.radius) * 0.4

/-- Liveness filter of the pairwise scan: FROZEN and SHATTERED bubbles are
skipped (MicroverseCanvas.tsx lines 1796 and 1800). -/
def liveBubble (b : Bubble) : Prop :=
  b.state ≠ .FROZEN ∧ b.state ≠ .SHATTERED

/-- Effect of one merge on the store: position i is overwritten with the
merged bubble and position j is spliced out (MicroverseCanvas.tsx
lines 1861-1867). -/
noncomputable def mergeStep (bs : List Bubble) (i j : ℕ) (hi : i < bs.length)
    (hj : j < bs.length) : List Bubble :=
  (bs.set i (mergeBubbles (bs.get ⟨i, hi⟩) (bs.get ⟨j, hj⟩))).eraseIdx j

/-- Freeze transition of contact resolution, MicroverseCanvas.tsx
line 1901: state FROZEN, stateTimer reset to 0, vx damped to a tenth,
vy zeroed. -/
def freezeBubble (b : Bubble) : Bubble :=
  { b with state := .FROZEN, stateTimer := 0, vx := b.vx * 0.1, vy := 0 }

/-- Outcome of contact resolution on the locked target: either the bubble
is removed with a particle burst, or it stays (frozen or untouched). -/
inductive ContactResult where
  | removed (burst : BurstType)
  | kept (b : Bubble)

/-- Contact resolution, MicroverseCanvas.tsx lines 1891-1906: a hand speed
above 10 always pops; otherwise a FLOATING bubble branches on one uniform
random draw into freeze, melt, evaporate or pop; any other state is left
alone. -/
noncomputable def resolveContact (b : Bubble) (speed chance : ℝ) : ContactResult :=
  if 10 < speed then .removed .POPPING
  else if b.state = .FLOATING then
    if chance < 0.25 then .kept (freezeBubble b)
    else if chance < 0.5 then .removed .MELT
    else if chance < 0.75 then .removed .EVAPORATE
    else .removed .POPPING
  else .kept b

/-- Per-tick kinematics of one bubble, MicroverseCanvas.tsx
lines 1908-1920. A FROZEN bubble advances its stateTimer, is heavily
damped below the 1.0 threshold and falls under tripled gravity above it,
and shatters on reaching the bottom. Any other bubble gets upward gravity
and drag, reflects off the side walls with factor -0.8, and is removed
without particles once above the top by twice its radius. -/
noncomputable def bubbleKinematics (b : Bubble) (width height : ℝ) :
    Option Bubble × List BurstType :=
  if b.state = .FROZEN then
    let st := b.stateTimer + 0.008
    let vx := if 1.0 < st then b.vx else b.vx * 0.9
    let vy := if 1.0 < st then b.vy + GRAVITY * 3 else b.vy * 0.9
    let x := b.x + vx
    let y := b.y + vy
    if height - b.radius < y then (none, [.SHATTER])
    else (some { b with stateTimer := st, vx := vx, vy := vy, x := x, y := y }, [])
  else
    let vx1 := b.vx * AIR_RESISTANCE
    let vy1 := (b.vy - GRAVITY * 0.6) * AIR_RESISTANCE
    let x1 := if b.x < b.radius then b.radius else b.x
    let vx2 := if b.x < b.radius then vx1 * (-0.8) else vx1
    let x2 := if width - b.radius < x1 then width - b.radius else x1
    let vx3 := if width - b.radius < x1 then vx2 * (-0.8) else vx2
    if b.y < -b.radius * 2 then (none, [])
    else (some { b with vx := vx3, vy := vy1, x := x2 + vx3, y := b.y + vy1 }, [])

/-- One bubble of the reverse-iteration update loop, MicroverseCanvas.tsx
lines 1874-1922: contact resolution first when the fingertip hit test
succeeded (removal short-circuits the tick and fires onExpandUniverse with
the removed bubble theme), then kinematics on the possibly-frozen bubble.
The third component lists the themes passed to onExpandUniverse this
tick. -/
noncomputable def bubbleTick (b : Bubble) (hit : Bool) (speed chance width height : ℝ) :
    Option Bubble × List BurstType × List BubbleTheme :=
  if hit then
    match resolveContact b speed chance with
    | .removed burst => (none, [burst], [b.theme])
    | .kept b2 =>
        ((bubbleKinematics b2 width height).1, (bubbleKinematics b2 width height).2, [])
  else
    ((bubbleKinematics b width height).1, (bubbleKinematics b width height).2, [])

/-- Locked-target record of the POINT interaction (lockedTarget ref,
MicroverseCanvas.tsx line 954). -/
structure LockedTarget where
  id : ℕ
  x : ℝ
  y : ℝ
  r : ℝ

/-- One bubble of the POINT targeting scan, MicroverseCanvas.tsx
lines 1712-1719: bubbles younger than 1500 ms are skipped, otherwise a
bubble closer to the fingertip than both (radius + 80) and the best
distance so far becomes the candidate. -/
noncomputable def lockStep (now : ℝ) (tip : Point) (acc : ℝ × Option LockedTarget)
    (b : Bubble) : ℝ × Option LockedTarget :=
  if now - b.creationTime < 1500 then acc
  else
    let d := dist (b.x, b.y) tip
    if d < b.radius + 80 ∧ d < acc.1 then (d, some ⟨b.id, b.x, b.y, b.radius⟩) else acc

/-- POINT targeting over the store, starting from closestDistToFinger =
9999 and no target (MicroverseCanvas.tsx lines 1646-1647 and
1711-1720). -/
noncomputable def selectTarget (now : ℝ) (tip : Point) (bs : List Bubble) :
    Option LockedTarget :=
  (bs.foldl (lockStep now tip) (9999, none)).2

/-- Fingertip hit test of the update loop, MicroverseCanvas.tsx
lines 1881-1888: the bubble must be the locked target, the hand gesture
POINT, and the fingertip within radius + 15 of the bubble center. -/
noncomputable def hitTest (target : Option LockedTarget) (b : Bubble)
    (gesture : GestureType) (tip : Point) : Prop :=
  ∃ t, target = some t ∧ t.id = b.id ∧ gesture = .POINT ∧
    dist (b.x, b.y) tip < b.radius + 15

/-- Branch condition of the FIST repulsion field, MicroverseCanvas.tsx
lines 1696-1707: the force applies only when the distance to the hand
center is below 120 + radius and strictly positive. -/
noncomputable def fistRepelTaken (b : Bubble) (center : Point) : Prop :=
  dist (b.x, b.y) center < 120 + b.radius ∧ 0 < dist (b.x, b.y) center

/-- Branch condition of the right-click repulsion field,
MicroverseCanvas.tsx lines 1726-1734: same guard as the FIST field. -/
noncomputable def rightClickRepelTaken (b : Bubble) (mouse : Point) : Prop :=
  dist (b.x, b.y) mouse < 120 + b.radius ∧ 0 < dist (b.x, b.y) mouse

/-- Branch condition of the young-trail-pair short-range repulsion,
MicroverseCanvas.tsx lines 1794-1817: both bubbles live, bounding boxes
within 300, both trail bubbles with one of them younger than the 2000 ms
immunity window, center distance below the 1.8-times-radius-sum stick
distance and below the radius sum. Inside this branch the code divides
(b2.x - b1.x) and (b2.y - b1.y) by the center distance with no positivity
guard. -/
noncomputable def youngTrailRepelTaken (now : ℝ) (b1 b2 : Bubble) : Prop :=
  liveBubble b1 ∧ liveBubble b2 ∧
  |b1.x - b2.x| ≤ 300 ∧ |b1.y - b2.y| ≤ 300 ∧
  (b1.isTrail ∧ b2.isTrail) ∧
  (now - b1.creationTime < 2000 ∨ now - b2.creationTime < 2000) ∧
  dist (b1.x, b1.y) (b2.x, b2.y) < (b1.radius + b2.radius) * 1.8 ∧
  dist (b1.x, b1.y) (b2.x, b2.y) < b1.radius + b2.radius

/-- Horizontal acceleration applied by the young-trail-pair repulsion
branch, MicroverseCanvas.tsx lines 1814-1815: the direction vector is
normalized by dividing by the center distance. -/
noncomputable def youngTrailRepelAx (b1 b2 : Bubble) : ℝ :=
  (b2.x - b1.x) / dist (b1.x, b1.y) (b2.x, b2.y) *
    (0.05 * (1 - dist (b1.x, b1.y) (b2.x, b2.y) / ((b1.radius + b2.radius) * 1.8)))

/-- Concrete all-zero hand pose: every landmark at the origin. -/
noncomputable def zeroPose : Landmarks := fun _ => ((0 : ℝ), (0 : ℝ))

/-- Concrete pinched-but-extended hand pose: thumb tip and index tip meet
at (1,0), the middle tip sits at (0,1), every other landmark at the
origin. -/
noncomputable def pinchPose : Landmarks := fun i =>
  if i = 4 ∨ i = 8 then ((1 : ℝ), (0 : ℝ))
  else if i = 12 then ((0 : ℝ), (1 : ℝ))
  else ((0 : ℝ), (0 : ℝ))

/-- Concrete bubble at the 220 radius cap (reachable by a clamped merge),
coincident with its merge partner. -/
noncomputable def capBubble1 : Bubble :=
  { id := 1, x := 100, y := 100, vx := 0, vy := 0, radius := 220, mass := 48400,
    theme := .CRYSTAL, state := .FLOATING, stateTimer := 0, creationTime := 0,
    isTrail := false }

/-- Concrete second bubble at the 220 radius cap. -/
noncomputable def capBubble2 : Bubble := { capBubble1 with id := 2 }

/-- Concrete radius-200 bubble (a pinch-grown release size) for the mass
invariant counterexample. -/
noncomputable def bigBubble1 : Bubble :=
  { id := 3, x := 50, y := 50, vx := 0, vy := 0, radius := 200, mass := 40000,
    theme := .NEBULA, state := .FLOATING, stateTimer := 0, creationTime := 0,
    isTrail := false }

/-- Concrete radius-150 bubble coincident with bigBubble1. -/
noncomputable def bigBubble2 : Bubble :=
  { bigBubble1 with id := 4, radius := 150, mass := 22500 }

/-- Concrete radius-3 bubble for the merge witness. -/
noncomputable def smallBubble1 : Bubble :=
  { id := 5, x := 0, y := 0, vx := 1, vy := 0, radius := 3, mass := 9,
    theme := .FOREST, state := .FLOATING, stateTimer := 0, creationTime := 0,
    isTrail := false }

/-- Concrete radius-4 bubble for the merge witness. -/
noncomputable def smallBubble2 : Bubble :=
  { smallBubble1 with id := 6, radius := 4, mass := 16 }

/-- Concrete FROZEN bubble (stateTimer 0.5, falling) for the frozen-state
witnesses. -/
noncomputable def frozenBubble : Bubble :=
  { id := 8, x := 100, y := 100, vx := 2, vy := 3, radius := 30, mass := 900,
    theme := .QUANTUM, state := .FROZEN, stateTimer := 0.5, creationTime := 0,
    isTrail := false }

/-- Concrete FLOATING bubble near the left wall for the kinematics
witness. -/
noncomputable def floatBubble : Bubble :=
  { id := 9, x := 5, y := 300, vx := -4, vy := 1, radius := 10, mass := 100,
    theme := .ABSTRACT, state := .FLOATING, stateTimer := 0, creationTime := 0,
    isTrail := false }

/-- Concrete FLOATING bubble at the origin for the POINT targeting
witness. -/
noncomputable def pointBubble : Bubble :=
  { id := 12, x := 0, y := 0, vx := 0, vy := 0, radius := 50, mass := 2500,
    theme := .CYBER, state := .FLOATING, stateTimer := 0, creationTime := 0,
    isTrail := false }

/-- Concrete just-created trail bubble. -/
noncomputable def trailBubble1 : Bubble :=
  { id := 10, x := 100, y := 100, vx := 0, vy := 0, radius := 20, mass := 400,
    theme := .FOREST, state := .FLOATING, stateTimer := 0, creationTime := 0,
    isTrail := true }

/-- Concrete second trail bubble, coincident with the first. -/
noncomputable def trailBubble2 : Bubble := { trailBubble1 with id := 11 }

theorem zeroPose_p1dist (i j : ℕ) : p1dist zeroPose 640 480 i j = 0 := by
  simp [p1dist, dist, zeroPose]

/-- C3 (amended): in the MicroverseCanvas.tsx classifier the pinch test is
first and takes priority, so any pose with thumb-to-index distance below
0.05 classifies as PINCH regardless of the finger-curl conditions; in the
src/unnamed/part_001 classifier the FIST curl test is first, so the pinch
distance being below 50 yields PINCH only when fewer than 3 non-thumb
fingers are curled. -/
theorem pinch_priority_by_variant :
    (∀ l : Landmarks, dist (l THUMB_TIP) (l INDEX_TIP) < 0.05 →
      detGestureCanvas l = .PINCH) ∧
    (∀ (l : Landmarks) (w h : ℝ), p1curledCount l w h < 3 →
      p1dist l w h THUMB_TIP INDEX_TIP < 50 → detGestureP1 l w h = .PINCH) := by
  constructor
  · intro l hp
    unfold detGestureCanvas
    rw [if_pos hp]
  · intro l w h hc hp
    unfold detGestureP1
    rw [if_neg (by omega), if_pos hp]

/-- C3 witness: the all-zero pose pinches in the canvas classifier, and the
pinched-but-extended pose (2 curled fingers, pinch distance 0) pinches in
the part_001 classifier. -/
theorem pinch_priority_by_variant_witness :
    detGestureCanvas zeroPose = .PINCH ∧ detGestureP1 pinchPose 100 100 = .PINCH := by
  have e85 : p1dist pinchPose 100 100 INDEX_TIP INDEX_MCP = 100 := by
    simp only [p1dist, dist, pinchPose, INDEX_TIP, INDEX_MCP]
    norm_num
    rw [show (10000 : ℝ) = 100 ^ 2 by norm_num, Real.sqrt_sq (by norm_num)]
  have e129 : p1dist pinchPose 100 100 MIDDLE_TIP MIDDLE_MCP = 100 := by
    simp only [p1dist, dist, pinchPose, MIDDLE_TIP, MIDDLE_MCP]
    norm_num
    rw [show (10000 : ℝ) = 100 ^ 2 by norm_num, Real.sqrt_sq (by norm_num)]
  have e1613 : p1dist pinchPose 100 100 RING_TIP RING_MCP = 0 := by
    simp only [p1dist, dist, pinchPose, RING_TIP, RING_MCP]
    norm_num
  have e2017 : p1dist pinchPose 100 100 PINKY_TIP PINKY_MCP = 0 := by
    simp only [p1dist, dist, pinchPose, PINKY_TIP, PINKY_MCP]
    norm_num
  have e48 : p1dist pinchPose 100 100 THUMB_TIP INDEX_TIP = 0 := by
    simp only [p1dist, dist, pinchPose, THUMB_TIP, INDEX_TIP]
    norm_num
  have hcur : p1curledCount pinchPose 100 100 < 3 := by
    unfold p1curledCount
    rw [e85, e129, e1613, e2017]
    norm_num
  have hz : dist (zeroPose THUMB_TIP) (zeroPose INDEX_TIP) < 0.05 := by
    simp only [dist, zeroPose]
    norm_num [Real.sqrt_zero]
  exact ⟨pinch_priority_by_variant.1 zeroPose hz,
    pinch_priority_by_variant.2 pinchPose 100 100 hcur (by rw [e48]; norm_num)⟩

/-- C3 counterexample: on the all-zero pose the part_001 classifier sees a
pinch distance of 0 (below the 50 threshold) and 4 curled fingers, and it
returns FIST, not PINCH. -/
theorem pinch_priority_counterexample :
    detGestureP1 zeroPose 640 480 = .FIST ∧
    p1dist zeroPose 640 480 THUMB_TIP INDEX_TIP < 50 ∧
    GestureType.FIST ≠ GestureType.PINCH := by
  have hc : 3 ≤ p1curledCount zeroPose 640 480 := by
    unfold p1curledCount
    rw [zeroPose_p1dist, zeroPose_p1dist, zeroPose_p1dist, zeroPose_p1dist]
    norm_num
  refine ⟨?_, ?_, by decide⟩
  · unfold detGestureP1
    rw [if_pos hc]
  · rw [zeroPose_p1dist]
    norm_num

theorem firstSeen_mem_aux (x : GestureType) :
    ∀ (l acc : List GestureType),
      (x ∈ l.foldl (fun acc g => if g ∈ acc then acc else acc ++ [g]) acc ↔
        x ∈ acc ∨ x ∈ l) := by
  intro l
  induction l with
  | nil => intro acc; simp
  | cons e l ih =>
      intro acc
      rw [List.foldl_cons, ih]
      by_cases he : e ∈ acc
      · rw [if_pos he]
        constructor
        · rintro (h | h)
          · exact Or.inl h
          · exact Or.inr (List.mem_cons_of_mem e h)
        · rintro (h | h)
          · exact Or.inl h
          · rcases List.mem_cons.mp h with rfl | h2
            · exact Or.inl he
            · exact Or.inr h2
      · rw [if_neg he]
        simp only [List.mem_append, List.mem_singleton, List.mem_cons]
        tauto

theorem mem_firstSeen (x : GestureType) (l : List GestureType) :
    x ∈ firstSeen l ↔ x ∈ l := by
  unfold firstSeen
  rw [firstSeen_mem_aux]
  simp

theorem stableFold_le (hist : List GestureType) :
    ∀ (l : List GestureType) (acc : GestureType × ℕ),
      acc.2 ≤ (l.foldl (stableStep hist) acc).2 := by
  intro l
  induction l with
  | nil => intro acc; exact le_refl _
  | cons e l ih =>
      intro acc
      rw [List.foldl_cons]
      refine le_trans ?_ (ih (stableStep hist acc e))
      unfold stableStep
      split_ifs with h
      · exact le_of_lt h
      · exact le_refl _

theorem stableFold_covers (hist : List GestureType) :
    ∀ (l : List GestureType) (acc : GestureType × ℕ) (g : GestureType), g ∈ l →
      hist.count g ≤ (l.foldl (stableStep hist) acc).2 := by
  intro l
  induction l with
  | nil => intro acc g hg; cases hg
  | cons e l ih =>
      intro acc g hg
      rw [List.foldl_cons]
      rcases List.mem_cons.mp hg with rfl | hmem
      · refine le_trans ?_ (stableFold_le hist l (stableStep hist acc g))
        unfold stableStep
        split_ifs with h
        · exact le_refl _
        · exact le_of_not_lt h
      · exact ih (stableStep hist acc e) g hmem

theorem stableFold_cases (hist : List GestureType) :
    ∀ (l : List GestureType) (acc : GestureType × ℕ),
      l.foldl (stableStep hist) acc = acc ∨
        ((l.foldl (stableStep hist) acc).1 ∈ l ∧
          (l.foldl (stableStep hist) acc).2 =
            hist.count (l.foldl (stableStep hist) acc).1) := by
  intro l
  induction l with
  | nil => intro acc; exact Or.inl rfl
  | cons e l ih =>
      intro acc
      rw [List.foldl_cons]
      rcases ih (stableStep hist acc e) with heq | ⟨hmem, hcnt⟩
      · rw [heq]
        unfold stableStep
        split_ifs with h
        · exact Or.inr ⟨List.mem_cons_self e l, rfl⟩
        · exact Or.inl rfl
      · exact Or.inr ⟨List.mem_cons_of_mem e hmem, hcnt⟩

theorem stableFold_stay_or_grow (hist : List GestureType) :
    ∀ (l : List GestureType) (acc : GestureType × ℕ),
      l.foldl (stableStep hist) acc = acc ∨ acc.2 < (l.foldl (stableStep hist) acc).2 := by
  intro l
  induction l with
  | nil => intro acc; exact Or.inl rfl
  | cons e l ih =>
      intro acc
      rw [List.foldl_cons]
      by_cases h : acc.2 < hist.count e
      · right
        have hs : (stableStep hist acc e).2 = hist.count e := by
          unfold stableStep
          rw [if_pos h]
        exact lt_of_lt_of_le (hs ▸ h) (stableFold_le hist l _)
      · have hs : stableStep hist acc e = acc := by
          unfold stableStep
          rw [if_neg h]
        rw [hs]
        exact ih acc

theorem stableFold_first (hist : List GestureType) :
    ∀ (l : List GestureType) (acc : GestureType × ℕ) (g : GestureType), g ∈ l →
      hist.count g = (l.foldl (stableStep hist) acc).2 →
      acc.2 < hist.count g →
      (l.foldl (stableStep hist) acc).1 ∈ l ∧
        l.indexOf (l.foldl (stableStep hist) acc).1 ≤ l.indexOf g := by
  intro l
  induction l with
  | nil => intro acc g hg; cases hg
  | cons e l ih =>
      intro acc g hg hcnt hgt
      rw [List.foldl_cons] at hcnt ⊢
      by_cases he : acc.2 < hist.count e
      · have hstep : stableStep hist acc e = (e, hist.count e) := by
          unfold stableStep
          rw [if_pos he]
        rw [hstep] at hcnt ⊢
        by_cases hge : hist.count g ≤ hist.count e
        · have hres : List.foldl (stableStep hist) (e, hist.count e) l = (e, hist.count e) := by
            rcases stableFold_stay_or_grow hist l (e, hist.count e) with h | h
            · exact h
            · exact absurd (lt_of_le_of_lt hge (hcnt ▸ h)) (lt_irrefl _)
          rw [hres]
          exact ⟨List.mem_cons_self e l, by
            rw [List.indexOf_cons_self]
            exact Nat.zero_le _⟩
        · push_neg at hge
          have hne : g ≠ e := fun h => absurd (h ▸ hge) (lt_irrefl _)
          have hgl : g ∈ l := by
            rcases List.mem_cons.mp hg with rfl | h
            · exact absurd rfl hne
            · exact h
          obtain ⟨hm, hidx⟩ := ih (e, hist.count e) g hgl hcnt hge
          refine ⟨List.mem_cons_of_mem e hm, ?_⟩
          by_cases hre : (List.foldl (stableStep hist) (e, hist.count e) l).1 = e
          · rw [hre, List.indexOf_cons_self]
            exact Nat.zero_le _
          · rw [List.indexOf_cons_ne _ (Ne.symm hre), List.indexOf_cons_ne _ (Ne.symm hne)]
            exact Nat.succ_le_succ hidx
      · have hstep : stableStep hist acc e = acc := by
          unfold stableStep
          rw [if_neg he]
        rw [hstep] at hcnt ⊢
        have hne : g ≠ e := fun h => he (h ▸ hgt)
        have hgl : g ∈ l := by
          rcases List.mem_cons.mp hg with rfl | h
          · exact absurd rfl hne
          · exact h
        obtain ⟨hm, hidx⟩ := ih acc g hgl hcnt hgt
        refine ⟨List.mem_cons_of_mem e hm, ?_⟩
        by_cases hre : (List.foldl (stableStep hist) acc l).1 = e
        · rw [hre, List.indexOf_cons_self]
          exact Nat.zero_le _
        · rw [List.indexOf_cons_ne _ (Ne.symm hre), List.indexOf_cons_ne _ (Ne.symm hne)]
          exact Nat.succ_le_succ hidx

theorem firstSeen_replicate_aux (A : GestureType) :
    ∀ m : ℕ, List.foldl (fun acc g => if g ∈ acc then acc else acc ++ [g]) [A]
      (List.replicate m A) = [A] := by
  intro m
  induction m with
  | zero => rfl
  | succ k ih =>
      rw [List.replicate_succ, List.foldl_cons, if_pos (List.mem_singleton_self A)]
      exact ih

theorem firstSeen_uniform_outlier (A B : GestureType) (hAB : A ≠ B) (m : ℕ) (hm : 1 ≤ m) :
    firstSeen (List.replicate m A ++ [B]) = [A, B] := by
  obtain ⟨k, rfl⟩ : ∃ k, m = k + 1 := ⟨m - 1, by omega⟩
  have hinner : List.foldl (fun acc g => if g ∈ acc then acc else acc ++ [g])
      ([] : List GestureType) (List.replicate (k + 1) A) = [A] := by
    simp only [List.replicate_succ, List.foldl_cons]
    rw [if_neg (List.not_mem_nil A), List.nil_append]
    exact firstSeen_replicate_aux A k
  have hB : B ∉ [A] := by
    rw [List.mem_singleton]
    exact Ne.symm hAB
  unfold firstSeen
  rw [List.foldl_append, hinner]
  simp only [List.foldl_cons, List.foldl_nil]
  rw [if_neg hB]
  rfl

theorem count_uniform_outlier (A B : GestureType) (hAB : A ≠ B) (m : ℕ) :
    (List.replicate m A ++ [B]).count A = m ∧ (List.replicate m A ++ [B]).count B = 1 := by
  constructor
  · rw [List.count_append, List.count_replicate_self, List.count_singleton',
      if_neg (Ne.symm hAB)]
    omega
  · rw [List.count_append, List.count_singleton', if_pos rfl]
    have hz : (List.replicate m A).count B = 0 := by
      rw [List.count_eq_zero]
      intro hmem
      exact hAB (List.eq_of_mem_replicate hmem).symm
    rw [hz]

theorem stable_uniform_outlier (A B : GestureType) (hAB : A ≠ B) (m : ℕ) (hm : 1 ≤ m) :
    stableGesture B (List.replicate m A ++ [B]) = A := by
  obtain ⟨hcA, hcB⟩ := count_uniform_outlier A B hAB m
  have s1 : stableStep (List.replicate m A ++ [B]) (B, 0) A = (A, m) := by
    unfold stableStep
    have h01 : ((B, 0) : GestureType × ℕ).2 < m := hm
    rw [hcA, if_pos h01]
  have s2 : stableStep (List.replicate m A ++ [B]) (A, m) B = (A, m) := by
    unfold stableStep
    have h02 : ¬((A, m) : GestureType × ℕ).2 < 1 := Nat.not_lt.mpr hm
    rw [hcB, if_neg h02]
  unfold stableGesture
  rw [firstSeen_uniform_outlier A B hAB m hm]
  simp only [List.foldl_cons, List.foldl_nil]
  rw [s1, s2]

/-- C4 (amended): the stable gesture is a most frequent value of the
history ring, with ties broken in favor of the value whose first occurrence
in the ring is earliest (the insertion order of the JavaScript counts
record) — the previous stable gesture is not consulted; and pushing a
single-frame outlier into an otherwise-uniform history never moves the
stable output away from the uniform value. -/
theorem stable_gesture_majority :
    (∀ (hist : List GestureType) (raw : GestureType), hist ≠ [] →
      stableGesture raw hist ∈ hist ∧
      (∀ g, hist.count g ≤ hist.count (stableGesture raw hist)) ∧
      (∀ g ∈ hist, hist.count g = hist.count (stableGesture raw hist) →
        (firstSeen hist).indexOf (stableGesture raw hist) ≤ (firstSeen hist).indexOf g)) ∧
    (∀ (A B : GestureType) (cap n : ℕ), A ≠ B → 1 ≤ n → n ≤ cap → 2 ≤ cap →
      stableGesture B (pushHistory cap (List.replicate n A) B) = A) := by
  constructor
  · intro hist raw hne
    obtain ⟨h0, hh0⟩ : ∃ x, x ∈ hist := List.exists_mem_of_ne_nil hist hne
    have hh0f : h0 ∈ firstSeen hist := (mem_firstSeen h0 hist).mpr hh0
    have hpos : 0 < ((firstSeen hist).foldl (stableStep hist) (raw, 0)).2 :=
      lt_of_lt_of_le (List.count_pos_iff.mpr hh0) (stableFold_covers hist _ _ h0 hh0f)
    have hcase := stableFold_cases hist (firstSeen hist) (raw, 0)
    rcases hcase with heq | ⟨hmem, hcnt⟩
    · rw [heq] at hpos
      exact absurd hpos (lt_irrefl 0)
    · have hsmem : stableGesture raw hist ∈ hist := (mem_firstSeen _ hist).mp hmem
      refine ⟨hsmem, ?_, ?_⟩
      · intro g
        by_cases hg : g ∈ hist
        · have := stableFold_covers hist (firstSeen hist) (raw, 0) g
            ((mem_firstSeen g hist).mpr hg)
          rw [hcnt] at this
          exact this
        · rw [List.count_eq_zero.mpr hg]
          exact Nat.zero_le _
      · intro g hg hcg
        have hgf : g ∈ firstSeen hist := (mem_firstSeen g hist).mpr hg
        have hgpos : (0 : ℕ) < hist.count g := List.count_pos_iff.mpr hg
        have heq2 : hist.count g = ((firstSeen hist).foldl (stableStep hist) (raw, 0)).2 := by
          rw [hcnt]
          exact hcg
        exact (stableFold_first hist (firstSeen hist) (raw, 0) g hgf heq2 hgpos).2
  · intro A B cap n hAB hn hncap hcap
    unfold pushHistory
    by_cases hfull : cap < (List.replicate n A ++ [B]).length
    · rw [if_pos hfull]
      rw [List.length_append, List.length_replicate, List.length_singleton] at hfull
      obtain ⟨k, rfl⟩ : ∃ k, n = k + 1 := ⟨n - 1, by omega⟩
      rw [List.replicate_succ, List.cons_append, List.tail_cons]
      exact stable_uniform_outlier A B hAB k (by omega)
    · rw [if_neg hfull]
      exact stable_uniform_outlier A B hAB n hn

/-- C4 witness: the ring [OPEN_HAND, OPEN_HAND, POINT] has stable gesture
OPEN_HAND (a most frequent value), and pushing one POINT outlier into a
full uniform OPEN_HAND ring of capacity 4 leaves the output OPEN_HAND. -/
theorem stable_gesture_majority_witness :
    (stableGesture .POINT [.OPEN_HAND, .OPEN_HAND, .POINT] ∈
        ([.OPEN_HAND, .OPEN_HAND, .POINT] : List GestureType) ∧
      (∀ g, ([.OPEN_HAND, .OPEN_HAND, .POINT] : List GestureType).count g ≤
        ([.OPEN_HAND, .OPEN_HAND, .POINT] : List GestureType).count
          (stableGesture .POINT [.OPEN_HAND, .OPEN_HAND, .POINT])) ∧
      (∀ g ∈ ([.OPEN_HAND, .OPEN_HAND, .POINT] : List GestureType),
        ([.OPEN_HAND, .OPEN_HAND, .POINT] : List GestureType).count g =
          ([.OPEN_HAND, .OPEN_HAND, .POINT] : List GestureType).count
            (stableGesture .POINT [.OPEN_HAND, .OPEN_HAND, .POINT]) →
        (firstSeen [.OPEN_HAND, .OPEN_HAND, .POINT]).indexOf
            (stableGesture .POINT [.OPEN_HAND, .OPEN_HAND, .POINT]) ≤
          (firstSeen [.OPEN_HAND, .OPEN_HAND, .POINT]).indexOf g)) ∧
    stableGesture .POINT
      (pushHistory GESTURE_HISTORY_SIZE (List.replicate 4 .OPEN_HAND) .POINT) = .OPEN_HAND :=
  ⟨stable_gesture_majority.1 [.OPEN_HAND, .OPEN_HAND, .POINT] .POINT (by decide),
    stable_gesture_majority.2 .OPEN_HAND .POINT GESTURE_HISTORY_SIZE 4 (by decide)
      (by decide) (by decide) (by decide)⟩

/-- C4 counterexample: with capacity 4, after raw gestures OPEN_HAND,
POINT, POINT the stable gesture is POINT; pushing one more OPEN_HAND gives
the tied ring [OPEN_HAND, POINT, POINT, OPEN_HAND], and the code outputs
OPEN_HAND (the first-seen value), not the previous stable gesture POINT —
refuting the claimed keep-previous-stable tie-break. -/
theorem stable_tiebreak_counterexample :
    stableGesture .POINT [.OPEN_HAND, .POINT, .POINT] = .POINT ∧
    pushHistory GESTURE_HISTORY_SIZE [.OPEN_HAND, .POINT, .POINT] .OPEN_HAND =
      [.OPEN_HAND, .POINT, .POINT, .OPEN_HAND] ∧
    ([.OPEN_HAND, .POINT, .POINT, .OPEN_HAND] : List GestureType).count .OPEN_HAND =
      ([.OPEN_HAND, .POINT, .POINT, .OPEN_HAND] : List GestureType).count .POINT ∧
    stableGesture .OPEN_HAND [.OPEN_HAND, .POINT, .POINT, .OPEN_HAND] = .OPEN_HAND ∧
    GestureType.OPEN_HAND ≠ GestureType.POINT := by
  decide

theorem mergeArea_div_pi (b1 b2 : Bubble) :
    (Real.pi * b1.radius ^ 2 + Real.pi * b2.radius ^ 2) / Real.pi =
      b1.radius ^ 2 + b2.radius ^ 2 := by
  rw [← mul_add, mul_div_cancel_left₀ _ Real.pi_ne_zero]

theorem mergeBubbles_radius_min (b1 b2 : Bubble) :
    (mergeBubbles b1 b2).radius =
      min (Real.sqrt (b1.radius ^ 2 + b2.radius ^ 2)) 220 := by
  show min (Real.sqrt ((Real.pi * b1.radius ^ 2 + Real.pi * b2.radius ^ 2) / Real.pi)) 220 = _
  rw [mergeArea_div_pi]

theorem mergeBubbles_radius (b1 b2 : Bubble)
    (hcap : b1.radius ^ 2 + b2.radius ^ 2 ≤ 220 ^ 2) :
    (mergeBubbles b1 b2).radius = Real.sqrt (b1.radius ^ 2 + b2.radius ^ 2) := by
  rw [mergeBubbles_radius_min]
  refine min_eq_left ?_
  calc Real.sqrt (b1.radius ^ 2 + b2.radius ^ 2) ≤ Real.sqrt (220 ^ 2) :=
        Real.sqrt_le_sqrt hcap
    _ = 220 := Real.sqrt_sq (by norm_num)

/-- C1 (amended): a merge of two bubbles yields the mass-weighted average
position and velocity, the summed mass, and the area-sum radius clamped at
220, and removes exactly one bubble from the store; when the unclamped
radius stays within the 220 cap (r1 squared plus r2 squared at most 220
squared) the merged circle area is exactly the sum of the two areas and the
survivor radius strictly increases — at the cap neither of those two parts
survives (see the counterexample). -/
theorem merge_conserves :
    (∀ b1 b2 : Bubble, 0 ≤ b1.radius → 0 < b2.radius →
      b1.radius ^ 2 + b2.radius ^ 2 ≤ 220 ^ 2 →
      (mergeBubbles b1 b2).x = (b1.x * b1.mass + b2.x * b2.mass) / (b1.mass + b2.mass) ∧
      (mergeBubbles b1 b2).y = (b1.y * b1.mass + b2.y * b2.mass) / (b1.mass + b2.mass) ∧
      (mergeBubbles b1 b2).vx = (b1.vx * b1.mass + b2.vx * b2.mass) / (b1.mass + b2.mass) ∧
      (mergeBubbles b1 b2).vy = (b1.vy * b1.mass + b2.vy * b2.mass) / (b1.mass + b2.mass) ∧
      (mergeBubbles b1 b2).mass = b1.mass + b2.mass ∧
      Real.pi * (mergeBubbles b1 b2).radius ^ 2 =
        Real.pi * b1.radius ^ 2 + Real.pi * b2.radius ^ 2 ∧
      (mergeBubbles b1 b2).radius ≤ 220 ∧
      b1.radius < (mergeBubbles b1 b2).radius) ∧
    (∀ (bs : List Bubble) (i j : ℕ) (hi : i < bs.length) (hj : j < bs.length),
      (mergeStep bs i j hi hj).length + 1 = bs.length) := by
  constructor
  · intro b1 b2 h1 h2 hcap
    have hS : (0 : ℝ) ≤ b1.radius ^ 2 + b2.radius ^ 2 := by positivity
    have hrad := mergeBubbles_radius b1 b2 hcap
    refine ⟨rfl, rfl, rfl, rfl, rfl, ?_, ?_, ?_⟩
    · rw [hrad, Real.sq_sqrt hS]
      ring
    · rw [mergeBubbles_radius_min]
      exact min_le_right _ _
    · rw [hrad]
      refine (Real.lt_sqrt h1).mpr ?_
      exact lt_add_of_pos_right _ (pow_pos h2 2)
  · intro bs i j hi hj
    unfold mergeStep
    have hj2 : j < (bs.set i (mergeBubbles (bs.get ⟨i, hi⟩) (bs.get ⟨j, hj⟩))).length := by
      rw [List.length_set]
      exact hj
    rw [List.length_eraseIdx_add_one hj2, List.length_set]

/-- C1 witness: merging the radius-3 and radius-4 bubbles gives summed mass
25, area-sum radius 5, a strict radius increase, and shrinks a two-element
store to one element. -/
theorem merge_conserves_witness :
    ((0 : ℝ) ≤ smallBubble1.radius ∧ (0 : ℝ) < smallBubble2.radius ∧
      smallBubble1.radius ^ 2 + smallBubble2.radius ^ 2 ≤ 220 ^ 2) ∧
    (mergeBubbles smallBubble1 smallBubble2).mass = smallBubble1.mass + smallBubble2.mass ∧
    Real.pi * (mergeBubbles smallBubble1 smallBubble2).radius ^ 2 =
      Real.pi * smallBubble1.radius ^ 2 + Real.pi * smallBubble2.radius ^ 2 ∧
    smallBubble1.radius < (mergeBubbles smallBubble1 smallBubble2).radius ∧
    (mergeStep [smallBubble1, smallBubble2] 0 1 (by simp) (by simp)).length + 1 =
      ([smallBubble1, smallBubble2] : List Bubble).length := by
  have h1 : (0 : ℝ) ≤ smallBubble1.radius := by norm_num [smallBubble1]
  have h2 : (0 : ℝ) < smallBubble2.radius := by norm_num [smallBubble2, smallBubble1]
  have h3 : smallBubble1.radius ^ 2 + smallBubble2.radius ^ 2 ≤ 220 ^ 2 := by
    norm_num [smallBubble1, smallBubble2]
  obtain ⟨-, -, -, -, hm, ha, -, hlt⟩ := merge_conserves.1 smallBubble1 smallBubble2 h1 h2 h3
  exact ⟨⟨h1, h2, h3⟩, hm, ha, hlt,
    merge_conserves.2 [smallBubble1, smallBubble2] 0 1 (by simp) (by simp)⟩

/-- C1 counterexample: two live, overlapping bubbles both already at the
220 radius cap merge to radius exactly 220 — the survivor radius does not
strictly increase (and the merged area is not the sum of areas). -/
theorem merge_radius_clamp_counterexample :
    liveBubble capBubble1 ∧ liveBubble capBubble2 ∧
    mergeCondition capBubble1 capBubble2 ∧
    ¬ capBubble1.radius < (mergeBubbles capBubble1 capBubble2).radius := by
  have hd : dist (capBubble1.x, capBubble1.y) (capBubble2.x, capBubble2.y) = 0 := by
    simp [dist, capBubble1, capBubble2]
  have hrad : (mergeBubbles capBubble1 capBubble2).radius = 220 := by
    rw [mergeBubbles_radius_min]
    have hS : capBubble1.radius ^ 2 + capBubble2.radius ^ 2 = 96800 := by
      norm_num [capBubble1, capBubble2]
    rw [hS]
    refine min_eq_right (Real.le_sqrt_of_sq_le ?_)
    norm_num
  refine ⟨⟨by decide, by decide⟩, ⟨by decide, by decide⟩, ?_, ?_⟩
  · unfold mergeCondition
    rw [hd]
    norm_num [capBubble1, capBubble2]
  · rw [hrad]
    norm_num [capBubble1]

/-- C2 (amended): mass equals the squared radius at creation (main and
satellite bubbles), is untouched by contact resolution and kinematics when
the bubble survives, and is preserved by a merge exactly when the unclamped
merged radius stays within the 220 cap; a clamping merge breaks the
invariant (see the counterexample). -/
theorem mass_radius_sq_invariant :
    (∀ (idv : ℕ) (x y radius vx vy : ℝ) (theme : BubbleTheme) (tNow : ℝ) (isTrail : Bool),
      (createBubble idv x y radius vx vy theme tNow isTrail).mass =
        (createBubble idv x y radius vx vy theme tNow isTrail).radius ^ 2) ∧
    (∀ (main : Bubble) (idv : ℕ) (angle smallR jx jy tNow : ℝ),
      (createSatellite main idv angle smallR jx jy tNow).mass =
        (createSatellite main idv angle smallR jx jy tNow).radius ^ 2) ∧
    (∀ b1 b2 : Bubble, b1.mass = b1.radius ^ 2 → b2.mass = b2.radius ^ 2 →
      b1.radius ^ 2 + b2.radius ^ 2 ≤ 220 ^ 2 →
      (mergeBubbles b1 b2).mass = (mergeBubbles b1 b2).radius ^ 2) ∧
    (∀ (b : Bubble) (speed chance : ℝ) (b2 : Bubble),
      resolveContact b speed chance = .kept b2 → b2.mass = b.mass ∧ b2.radius = b.radius) ∧
    (∀ (b : Bubble) (w h : ℝ) (b2 : Bubble),
      (bubbleKinematics b w h).1 = some b2 → b2.mass = b.mass ∧ b2.radius = b.radius) := by
  refine ⟨?_, ?_, ?_, ?_, ?_⟩
  · intro idv x y radius vx vy theme tNow isTrail
    show radius * radius = radius ^ 2
    rw [pow_two]
  · intro main idv angle smallR jx jy tNow
    show smallR * smallR = smallR ^ 2
    rw [pow_two]
  · intro b1 b2 hm1 hm2 hcap
    have hS : (0 : ℝ) ≤ b1.radius ^ 2 + b2.radius ^ 2 := by positivity
    have hmass : (mergeBubbles b1 b2).mass = b1.mass + b2.mass := rfl
    rw [hmass, mergeBubbles_radius b1 b2 hcap, Real.sq_sqrt hS, hm1, hm2]
  · intro b speed chance b2 h
    unfold resolveContact at h
    split_ifs at h <;>
      first
        | exact ⟨rfl, rfl⟩
        | exact ContactResult.noConfusion h
        | (have hb : _ = b2 := ContactResult.kept.inj h
           subst hb
           exact ⟨rfl, rfl⟩)
  · intro b w h b2 hs
    simp only [bubbleKinematics] at hs
    split_ifs at hs <;>
      first
        | exact ⟨rfl, rfl⟩
        | exact Option.noConfusion hs
        | (have hb : _ = b2 := Option.some.inj hs
           subst hb
           exact ⟨rfl, rfl⟩)

/-- C2 witness: merging the radius-3 and radius-4 bubbles (both satisfying
mass equals squared radius) yields mass 25 equal to the squared merged
radius 5; the freeze transition and a surviving kinematics step keep mass
and radius. -/
theorem mass_radius_sq_invariant_witness :
    (createBubble 7 0 0 50 0 0 .CYBER 0 false).mass =
      (createBubble 7 0 0 50 0 0 .CYBER 0 false).radius ^ 2 ∧
    (smallBubble1.mass = smallBubble1.radius ^ 2 ∧
      smallBubble2.mass = smallBubble2.radius ^ 2 ∧
      smallBubble1.radius ^ 2 + smallBubble2.radius ^ 2 ≤ 220 ^ 2) ∧
    (mergeBubbles smallBubble1 smallBubble2).mass =
      (mergeBubbles smallBubble1 smallBubble2).radius ^ 2 := by
  have hm1 : smallBubble1.mass = smallBubble1.radius ^ 2 := by
    norm_num [smallBubble1]
  have hm2 : smallBubble2.mass = smallBubble2.radius ^ 2 := by
    norm_num [smallBubble2, smallBubble1]
  have hcap : smallBubble1.radius ^ 2 + smallBubble2.radius ^ 2 ≤ 220 ^ 2 := by
    norm_num [smallBubble1, smallBubble2]
  exact ⟨mass_radius_sq_invariant.1 7 0 0 50 0 0 .CYBER 0 false, ⟨hm1, hm2, hcap⟩,
    mass_radius_sq_invariant.2.2.1 smallBubble1 smallBubble2 hm1 hm2 hcap⟩

/-- C2 counterexample: merging live bubbles of radius 200 and 150 (both
with mass equal to squared radius) hits the 220 clamp: the merged mass is
62500 but the squared merged radius is 48400, so the invariant is broken
by this mutation. -/
theorem mass_invariant_clamp_counterexample :
    bigBubble1.mass = bigBubble1.radius ^ 2 ∧
    bigBubble2.mass = bigBubble2.radius ^ 2 ∧
    liveBubble bigBubble1 ∧ liveBubble bigBubble2 ∧
    mergeCondition bigBubble1 bigBubble2 ∧
    (mergeBubbles bigBubble1 bigBubble2).mass ≠
      (mergeBubbles bigBubble1 bigBubble2).radius ^ 2 := by
  have hd : dist (bigBubble1.x, bigBubble1.y) (bigBubble2.x, bigBubble2.y) = 0 := by
    simp [dist, bigBubble1, bigBubble2]
  have hrad : (mergeBubbles bigBubble1 bigBubble2).radius = 220 := by
    rw [mergeBubbles_radius_min]
    have hS : bigBubble1.radius ^ 2 + bigBubble2.radius ^ 2 = 62500 := by
      norm_num [bigBubble1, bigBubble2]
    rw [hS, show (62500 : ℝ) = 250 ^ 2 by norm_num, Real.sqrt_sq (by norm_num)]
    exact min_eq_right (by norm_num)
  have hmass : (mergeBubbles bigBubble1 bigBubble2).mass =
      bigBubble1.mass + bigBubble2.mass := rfl
  refine ⟨by norm_num [bigBubble1], by norm_num [bigBubble2, bigBubble1],
    ⟨by decide, by decide⟩, ⟨by decide, by decide⟩, ?_, ?_⟩
  · unfold mergeCondition
    rw [hd]
    norm_num [bigBubble1, bigBubble2]
  · rw [hmass, hrad]
    norm_num [bigBubble1, bigBubble2]

theorem resolveContact_fast (b : Bubble) (speed chance : ℝ) (hsp : 10 < speed) :
    resolveContact b speed chance = .removed .POPPING := by
  unfold resolveContact
  rw [if_pos hsp]

theorem resolveContact_floating (b : Bubble) (speed chance : ℝ) (hsp : speed ≤ 10)
    (hfl : b.state = .FLOATING) :
    resolveContact b speed chance =
      if chance < 0.25 then .kept (freezeBubble b)
      else if chance < 0.5 then .removed .MELT
      else if chance < 0.75 then .removed .EVAPORATE
      else .removed .POPPING := by
  unfold resolveContact
  rw [if_neg (not_lt.mpr hsp), if_pos hfl]

theorem resolveContact_slow_other (b : Bubble) (speed chance : ℝ) (hsp : speed ≤ 10)
    (hfl : b.state ≠ .FLOATING) : resolveContact b speed chance = .kept b := by
  unfold resolveContact
  rw [if_neg (not_lt.mpr hsp), if_neg hfl]

theorem bubbleTick_removed (b : Bubble) (speed chance w h : ℝ) (burst : BurstType)
    (hres : resolveContact b speed chance = .removed burst) :
    bubbleTick b true speed chance w h = (none, [burst], [b.theme]) := by
  unfold bubbleTick
  rw [if_pos rfl, hres]

theorem bubbleTick_kept (b b2 : Bubble) (speed chance w h : ℝ)
    (hres : resolveContact b speed chance = .kept b2) :
    bubbleTick b true speed chance w h =
      ((bubbleKinematics b2 w h).1, (bubbleKinematics b2 w h).2, []) := by
  unfold bubbleTick
  rw [if_pos rfl, hres]

theorem bubbleTick_nohit (b : Bubble) (speed chance w h : ℝ) :
    bubbleTick b false speed chance w h =
      ((bubbleKinematics b w h).1, (bubbleKinematics b w h).2, []) := by
  unfold bubbleTick
  rw [if_neg Bool.false_ne_true]

theorem resolveContact_freeze_iff (b : Bubble) (speed chance : ℝ) (hsp : speed ≤ 10)
    (hfl : b.state = .FLOATING) :
    resolveContact b speed chance = .kept (freezeBubble b) ↔ chance < 0.25 := by
  rw [resolveContact_floating b speed chance hsp hfl]
  split_ifs with h1 h2 h3
  · exact iff_of_true rfl h1
  · exact iff_of_false (by simp) h1
  · exact iff_of_false (by simp) h1
  · exact iff_of_false (by simp) h1

theorem resolveContact_melt_iff (b : Bubble) (speed chance : ℝ) (hsp : speed ≤ 10)
    (hfl : b.state = .FLOATING) :
    resolveContact b speed chance = .removed .MELT ↔ 0.25 ≤ chance ∧ chance < 0.5 := by
  rw [resolveContact_floating b speed chance hsp hfl]
  split_ifs with h1 h2 h3
  · exact iff_of_false (by simp) (fun hh => absurd h1 (not_lt.mpr hh.1))
  · exact iff_of_true rfl ⟨not_lt.mp h1, h2⟩
  · exact iff_of_false (by simp) (fun hh => absurd hh.2 (not_lt.mpr (not_lt.mp h2)))
  · exact iff_of_false (by simp) (fun hh => absurd hh.2 (not_lt.mpr (not_lt.mp h2)))

theorem resolveContact_evaporate_iff (b : Bubble) (speed chance : ℝ) (hsp : speed ≤ 10)
    (hfl : b.state = .FLOATING) :
    resolveContact b speed chance = .removed .EVAPORATE ↔ 0.5 ≤ chance ∧ chance < 0.75 := by
  rw [resolveContact_floating b speed chance hsp hfl]
  split_ifs with h1 h2 h3
  · exact iff_of_false (by simp) (fun hh => absurd h1 (not_lt.mpr (by linarith [hh.1])))
  · exact iff_of_false (by simp) (fun hh => absurd h2 (not_lt.mpr hh.1))
  · exact iff_of_true rfl ⟨not_lt.mp h2, h3⟩
  · exact iff_of_false (by simp) (fun hh => absurd hh.2 (not_lt.mpr (not_lt.mp h3)))

theorem resolveContact_pop_iff (b : Bubble) (speed chance : ℝ) (hsp : speed ≤ 10)
    (hfl : b.state = .FLOATING) :
    resolveContact b speed chance = .removed .POPPING ↔ 0.75 ≤ chance := by
  rw [resolveContact_floating b speed chance hsp hfl]
  split_ifs with h1 h2 h3
  · exact iff_of_false (by simp) (fun hh => absurd h1 (not_lt.mpr (by linarith)))
  · exact iff_of_false (by simp) (fun hh => absurd h2 (not_lt.mpr (by linarith)))
  · exact iff_of_false (by simp) (fun hh => absurd h3 (not_lt.mpr hh))
  · exact iff_of_true rfl (not_lt.mp h3)

theorem chanceSet_freeze (b : Bubble) (speed : ℝ) (hsp : speed ≤ 10)
    (hfl : b.state = .FLOATING) :
    {c : ℝ | c ∈ Set.Ico (0 : ℝ) 1 ∧
        resolveContact b speed c = .kept (freezeBubble b)} = Set.Ico (0 : ℝ) 0.25 := by
  ext c
  simp only [Set.mem_setOf_eq, Set.mem_Ico, resolveContact_freeze_iff b speed c hsp hfl]
  constructor
  · rintro ⟨⟨h0, -⟩, hq⟩
    exact ⟨h0, hq⟩
  · rintro ⟨h0, hq⟩
    exact ⟨⟨h0, by linarith⟩, hq⟩

theorem chanceSet_melt (b : Bubble) (speed : ℝ) (hsp : speed ≤ 10)
    (hfl : b.state = .FLOATING) :
    {c : ℝ | c ∈ Set.Ico (0 : ℝ) 1 ∧
        resolveContact b speed c = .removed .MELT} = Set.Ico (0.25 : ℝ) 0.5 := by
  ext c
  simp only [Set.mem_setOf_eq, Set.mem_Ico, resolveContact_melt_iff b speed c hsp hfl]
  constructor
  · rintro ⟨-, hq⟩
    exact hq
  · rintro ⟨h0, hq⟩
    exact ⟨⟨by linarith, by linarith⟩, h0, hq⟩

theorem chanceSet_evaporate (b : Bubble) (speed : ℝ) (hsp : speed ≤ 10)
    (hfl : b.state = .FLOATING) :
    {c : ℝ | c ∈ Set.Ico (0 : ℝ) 1 ∧
        resolveContact b speed c = .removed .EVAPORATE} = Set.Ico (0.5 : ℝ) 0.75 := by
  ext c
  simp only [Set.mem_setOf_eq, Set.mem_Ico, resolveContact_evaporate_iff b speed c hsp hfl]
  constructor
  · rintro ⟨-, hq⟩
    exact hq
  · rintro ⟨h0, hq⟩
    exact ⟨⟨by linarith, by linarith⟩, h0, hq⟩

theorem chanceSet_pop (b : Bubble) (speed : ℝ) (hsp : speed ≤ 10)
    (hfl : b.state = .FLOATING) :
    {c : ℝ | c ∈ Set.Ico (0 : ℝ) 1 ∧
        resolveContact b speed c = .removed .POPPING} = Set.Ico (0.75 : ℝ) 1 := by
  ext c
  simp only [Set.mem_setOf_eq, Set.mem_Ico, resolveContact_pop_iff b speed c hsp hfl]
  constructor
  · rintro ⟨⟨-, h1⟩, hq⟩
    exact ⟨hq, h1⟩
  · rintro ⟨h0, h1⟩
    exact ⟨⟨by linarith, h1⟩, h0⟩

/-- C6: when the POINT fingertip contacts the locked target, a hand speed
above the fast-swipe threshold 10 always pops — immediate removal in the
same tick with a POPPING burst, for every bubble state including FROZEN;
otherwise a FLOATING bubble branches on one uniform draw into four
equally likely outcomes (each an interval of chance values of Lebesgue
measure exactly 0.25): freeze (state FROZEN, stateTimer reset to 0, vx
damped to a tenth, vy zeroed), or removal with MELT, EVAPORATE, or POPPING
particles. -/
theorem contact_resolution_spec :
    (∀ (b : Bubble) (speed chance : ℝ), 10 < speed →
      resolveContact b speed chance = .removed .POPPING ∧
      ∀ w h : ℝ, bubbleTick b true speed chance w h = (none, [.POPPING], [b.theme])) ∧
    (∀ (b : Bubble) (speed chance : ℝ), speed ≤ 10 → b.state = .FLOATING →
      (resolveContact b speed chance = .kept (freezeBubble b) ↔ chance < 0.25) ∧
      (resolveContact b speed chance = .removed .MELT ↔ 0.25 ≤ chance ∧ chance < 0.5) ∧
      (resolveContact b speed chance = .removed .EVAPORATE ↔
        0.5 ≤ chance ∧ chance < 0.75) ∧
      (resolveContact b speed chance = .removed .POPPING ↔ 0.75 ≤ chance)) ∧
    (∀ b : Bubble, (freezeBubble b).state = .FROZEN ∧ (freezeBubble b).stateTimer = 0 ∧
      (freezeBubble b).vx = b.vx * 0.1 ∧ (freezeBubble b).vy = 0) ∧
    (∀ (b : Bubble) (speed : ℝ), speed ≤ 10 → b.state = .FLOATING →
      MeasureTheory.volume {c : ℝ | c ∈ Set.Ico (0 : ℝ) 1 ∧
        resolveContact b speed c = .kept (freezeBubble b)} = ENNReal.ofReal 0.25 ∧
      MeasureTheory.volume {c : ℝ | c ∈ Set.Ico (0 : ℝ) 1 ∧
        resolveContact b speed c = .removed .MELT} = ENNReal.ofReal 0.25 ∧
      MeasureTheory.volume {c : ℝ | c ∈ Set.Ico (0 : ℝ) 1 ∧
        resolveContact b speed c = .removed .EVAPORATE} = ENNReal.ofReal 0.25 ∧
      MeasureTheory.volume {c : ℝ | c ∈ Set.Ico (0 : ℝ) 1 ∧
        resolveContact b speed c = .removed .POPPING} = ENNReal.ofReal 0.25) := by
  refine ⟨?_, ?_, ?_, ?_⟩
  · intro b speed chance hsp
    refine ⟨resolveContact_fast b speed chance hsp, ?_⟩
    intro w h
    exact bubbleTick_removed b speed chance w h .POPPING
      (resolveContact_fast b speed chance hsp)
  · intro b speed chance hsp hfl
    exact ⟨resolveContact_freeze_iff b speed chance hsp hfl,
      resolveContact_melt_iff b speed chance hsp hfl,
      resolveContact_evaporate_iff b speed chance hsp hfl,
      resolveContact_pop_iff b speed chance hsp hfl⟩
  · intro b
    exact ⟨rfl, rfl, rfl, rfl⟩
  · intro b speed hsp hfl
    refine ⟨?_, ?_, ?_, ?_⟩
    · rw [chanceSet_freeze b speed hsp hfl, Real.volume_Ico]
      norm_num
    · rw [chanceSet_melt b speed hsp hfl, Real.volume_Ico]
      norm_num
    · rw [chanceSet_evaporate b speed hsp hfl, Real.volume_Ico]
      norm_num
    · rw [chanceSet_pop b speed hsp hfl, Real.volume_Ico]
      norm_num

/-- C6 witness: a speed-20 swipe pops the concrete frozen bubble in the
same tick; at speed 0 the concrete floating bubble freezes exactly for
chance 0.1, melts for chance 0.3, and its freeze outcome carries the reset
stateTimer and damped velocity; the freeze chance set has measure 0.25. -/
theorem contact_resolution_spec_witness :
    (resolveContact frozenBubble 20 0.5 = .removed .POPPING ∧
      bubbleTick frozenBubble true 20 0.5 640 480 =
        (none, [.POPPING], [frozenBubble.theme])) ∧
    resolveContact pointBubble 0 0.1 = .kept (freezeBubble pointBubble) ∧
    resolveContact pointBubble 0 0.3 = .removed .MELT ∧
    ((freezeBubble pointBubble).state = .FROZEN ∧
      (freezeBubble pointBubble).stateTimer = 0) ∧
    MeasureTheory.volume {c : ℝ | c ∈ Set.Ico (0 : ℝ) 1 ∧
      resolveContact pointBubble 0 c = .kept (freezeBubble pointBubble)} =
        ENNReal.ofReal 0.25 := by
  have h1 := contact_resolution_spec.1 frozenBubble 20 0.5 (by norm_num)
  have h2 := contact_resolution_spec.2.1 pointBubble 0 0.1 (by norm_num) rfl
  have h3 := contact_resolution_spec.2.1 pointBubble 0 0.3 (by norm_num) rfl
  have h4 := contact_resolution_spec.2.2.1 pointBubble
  have h5 := contact_resolution_spec.2.2.2 pointBubble 0 (by norm_num) rfl
  exact ⟨⟨h1.1, h1.2 640 480⟩, h2.1.mpr (by norm_num), h3.2.1.mpr (by norm_num),
    ⟨h4.1, h4.2.1⟩, h5.1⟩

/-- C9: a POINT contact at hand speed at or below the fast-swipe threshold
on a FROZEN bubble leaves it entirely unchanged: contact resolution keeps
the very same bubble, and the whole tick behaves exactly as if no contact
had happened (same survivor, same particles, no expansion event). -/
theorem frozen_contact_noop (b : Bubble) (speed chance : ℝ)
    (hfz : b.state = .FROZEN) (hsp : speed ≤ 10) :
    resolveContact b speed chance = .kept b ∧
    ∀ w h : ℝ, bubbleTick b true speed chance w h = bubbleTick b false speed chance w h := by
  have hr : resolveContact b speed chance = .kept b :=
    resolveContact_slow_other b speed chance hsp (by rw [hfz]; exact fun hh => BubbleState.noConfusion hh)
  refine ⟨hr, ?_⟩
  intro w h
  rw [bubbleTick_kept b b speed chance w h hr, bubbleTick_nohit]

/-- C9 witness: the concrete frozen bubble under a speed-5 contact is kept
unchanged and the tick equals the no-contact tick. -/
theorem frozen_contact_noop_witness :
    resolveContact frozenBubble 5 0.9 = .kept frozenBubble ∧
    ∀ w h : ℝ, bubbleTick frozenBubble true 5 0.9 w h =
      bubbleTick frozenBubble false 5 0.9 w h :=
  frozen_contact_noop frozenBubble 5 0.9 rfl (by norm_num)

/-- C7: the universe-expansion event fires, carrying the removed bubble
theme, exactly when the tick removes the bubble through the contact
interaction (fast swipe, or a slow contact on a FLOATING bubble whose
chance draw is at least 0.25 — melt, evaporate or pop); every fired event
accompanies a same-tick removal, and neither the SHATTER removal nor the
out-of-bounds removal (no particles) ever fires it. -/
theorem expansion_event_iff :
    ∀ (b : Bubble) (hit : Bool) (speed chance w h : ℝ),
      ((bubbleTick b hit speed chance w h).2.2 = [b.theme] ↔
        (hit = true ∧ (10 < speed ∨ (speed ≤ 10 ∧ b.state = .FLOATING ∧ 0.25 ≤ chance)))) ∧
      ((bubbleTick b hit speed chance w h).2.2 ≠ [] →
        (bubbleTick b hit speed chance w h).1 = none ∧
        (bubbleTick b hit speed chance w h).2.2 = [b.theme]) ∧
      ((bubbleTick b hit speed chance w h).2.1 = [.SHATTER] →
        (bubbleTick b hit speed chance w h).2.2 = []) ∧
      ((bubbleTick b hit speed chance w h).1 = none ∧
          (bubbleTick b hit speed chance w h).2.1 = [] →
        (bubbleTick b hit speed chance w h).2.2 = []) := by
  intro b hit speed chance w h
  cases hit with
  | false =>
      rw [bubbleTick_nohit]
      refine ⟨?_, ?_, fun _ => rfl, fun _ => rfl⟩
      · exact iff_of_false (by simp) (by rintro ⟨hh, -⟩; exact Bool.false_ne_true hh)
      · intro hh
        exact absurd rfl hh
  | true =>
      by_cases hsp : 10 < speed
      · rw [bubbleTick_removed b speed chance w h .POPPING
          (resolveContact_fast b speed chance hsp)]
        refine ⟨iff_of_true rfl ⟨rfl, Or.inl hsp⟩, fun _ => ⟨rfl, rfl⟩, ?_, ?_⟩
        · intro hh
          injection hh with hh1 hh2
          exact absurd hh1 (by decide)
        · rintro ⟨-, hp⟩
          exact absurd hp (by simp)
      · have hsple := not_lt.mp hsp
        by_cases hfl : b.state = .FLOATING
        · by_cases hc : chance < 0.25
          · have hres : resolveContact b speed chance = .kept (freezeBubble b) :=
              (resolveContact_freeze_iff b speed chance hsple hfl).mpr hc
            rw [bubbleTick_kept b (freezeBubble b) speed chance w h hres]
            refine ⟨?_, ?_, fun _ => rfl, fun _ => rfl⟩
            · refine iff_of_false (by simp) ?_
              rintro ⟨-, hh | ⟨-, -, hh⟩⟩
              · exact hsp hh
              · linarith
            · intro hh
              exact absurd rfl hh
          · have h25 : (0.25 : ℝ) ≤ chance := not_lt.mp hc
            have hmain : ∃ burst, resolveContact b speed chance = .removed burst ∧
                burst ≠ .SHATTER := by
              rw [resolveContact_floating b speed chance hsple hfl, if_neg hc]
              split_ifs with h2 h3
              · exact ⟨.MELT, rfl, by decide⟩
              · exact ⟨.EVAPORATE, rfl, by decide⟩
              · exact ⟨.POPPING, rfl, by decide⟩
            obtain ⟨burst, hres, hbs⟩ := hmain
            rw [bubbleTick_removed b speed chance w h burst hres]
            refine ⟨iff_of_true rfl ⟨rfl, Or.inr ⟨hsple, hfl, h25⟩⟩,
              fun _ => ⟨rfl, rfl⟩, ?_, ?_⟩
            · intro hh
              injection hh with hh1 hh2
              exact absurd hh1 hbs
            · rintro ⟨-, hp⟩
              exact absurd hp (by simp)
        · have hres := resolveContact_slow_other b speed chance hsple hfl
          rw [bubbleTick_kept b b speed chance w h hres]
          refine ⟨?_, ?_, fun _ => rfl, fun _ => rfl⟩
          · refine iff_of_false (by simp) ?_
            rintro ⟨-, hh | ⟨-, hh, -⟩⟩
            · exact hsp hh
            · exact hfl hh
          · intro hh
            exact absurd rfl hh

/-- C7 witness: a fast swipe on the concrete frozen bubble fires exactly
one event with its theme, and the uncontacted tick in which it shatters at
the bottom fires no event. -/
theorem expansion_event_iff_witness :
    (bubbleTick frozenBubble true 20 0.5 640 480).2.2 = [frozenBubble.theme] ∧
    (bubbleTick frozenBubble false 0 0.5 640 50).2.2 = [] := by
  constructor
  · exact (expansion_event_iff frozenBubble true 20 0.5 640 480).1.mpr
      ⟨rfl, Or.inl (by norm_num)⟩
  · refine (expansion_event_iff frozenBubble false 0 0.5 640 50).2.2.1 ?_
    rw [bubbleTick_nohit]
    show (bubbleKinematics frozenBubble 640 50).2 = [.SHATTER]
    simp only [bubbleKinematics, frozenBubble, GRAVITY]
    norm_num

/-- C10: a FROZEN bubble never interacts with the side walls (its tick
does not depend on the width, its velocity is never inverted and its
position never clamped — the horizontal speed is at most damped by 0.9)
and is never removed at the top; its only boundary removal is the bottom
(y beyond height minus radius), which emits exactly a SHATTER burst. A
non-FROZEN bubble is removed exactly when above the top by twice its
radius (with no particles), and reflects off the left wall with the -0.8
restitution applied to its dragged velocity, its position clamped to the
radius. -/
theorem frozen_vs_floating_kinematics :
    ∀ (b : Bubble) (w h : ℝ),
      (b.state = .FROZEN →
        (∀ w2 : ℝ, bubbleKinematics b w h = bubbleKinematics b w2 h) ∧
        ((bubbleKinematics b w h).1 = none ↔
          h - b.radius < b.y +
            (if 1.0 < b.stateTimer + 0.008 then b.vy + GRAVITY * 3 else b.vy * 0.9)) ∧
        ((bubbleKinematics b w h).1 = none → (bubbleKinematics b w h).2 = [.SHATTER]) ∧
        (∀ b2 : Bubble, (bubbleKinematics b w h).1 = some b2 →
          (b2.vx = b.vx ∨ b2.vx = b.vx * 0.9) ∧ b2.x = b.x + b2.vx ∧
            b2.state = b.state)) ∧
      (b.state ≠ .FROZEN →
        ((bubbleKinematics b w h).1 = none ↔ b.y < -b.radius * 2) ∧
        ((bubbleKinematics b w h).1 = none → (bubbleKinematics b w h).2 = []) ∧
        (b.x < b.radius → ¬(w - b.radius < b.radius) → ∀ b2 : Bubble,
          (bubbleKinematics b w h).1 = some b2 →
          b2.vx = b.vx * AIR_RESISTANCE * (-0.8) ∧ b2.x = b.radius + b2.vx)) := by
  intro b w h
  constructor
  · intro hfz
    refine ⟨?_, ?_, ?_, ?_⟩
    · intro w2
      unfold bubbleKinematics
      rw [if_pos hfz, if_pos hfz]
    · simp only [bubbleKinematics]
      rw [if_pos hfz]
      split_ifs with h1 h2 <;> simp_all
    · simp only [bubbleKinematics]
      rw [if_pos hfz]
      split_ifs with h1 h2 <;> intro hs <;>
        first
          | rfl
          | exact hs.elim
          | exact Option.noConfusion hs
    · intro b2
      simp only [bubbleKinematics]
      rw [if_pos hfz]
      split_ifs with h1 h2 <;> intro hs <;>
        first
          | exact hs.elim
          | exact Option.noConfusion hs
          | (have hb : _ = b2 := Option.some.inj hs
             subst hb
             exact ⟨Or.inl rfl, rfl, rfl⟩)
          | (have hb : _ = b2 := Option.some.inj hs
             subst hb
             exact ⟨Or.inr rfl, rfl, rfl⟩)
  · intro hnf
    refine ⟨?_, ?_, ?_⟩
    · simp only [bubbleKinematics]
      rw [if_neg hnf]
      split_ifs <;> simp_all
    · simp only [bubbleKinematics]
      rw [if_neg hnf]
      split_ifs <;> intro hs <;>
        first
          | rfl
          | exact hs.elim
          | exact Option.noConfusion hs
    · intro hxl hxr b2
      simp only [bubbleKinematics]
      rw [if_neg hnf]
      split_ifs <;> intro hs <;>
        first
          | exact hs.elim
          | exact Option.noConfusion hs
          | (exact absurd hxl (by assumption))
          | (have hcl : w - b.radius < b.radius := by assumption
             exact absurd hcl hxr)
          | (have hb : _ = b2 := Option.some.inj hs
             subst hb
             exact ⟨rfl, rfl⟩)

/-- C10 witness: the concrete frozen bubble shatters at the bottom of a
height-50 canvas independently of the width, and the concrete floating
bubble well inside the area is not removed. -/
theorem frozen_vs_floating_kinematics_witness :
    (bubbleKinematics frozenBubble 640 50).1 = none ∧
    (bubbleKinematics frozenBubble 640 50).2 = [.SHATTER] ∧
    (∀ w2 : ℝ, bubbleKinematics frozenBubble 640 50 = bubbleKinematics frozenBubble w2 50) ∧
    (bubbleKinematics floatBubble 640 480).1 ≠ none := by
  obtain ⟨hwidth, hiff, hshat, -⟩ := (frozen_vs_floating_kinematics frozenBubble 640 50).1 rfl
  have hnone : (bubbleKinematics frozenBubble 640 50).1 = none := by
    refine hiff.mpr ?_
    norm_num [frozenBubble, GRAVITY]
  obtain ⟨hfiff, -, -⟩ := (frozen_vs_floating_kinematics floatBubble 640 480).2 (by decide)
  refine ⟨hnone, hshat hnone, hwidth, ?_⟩
  intro hn
  have hy := hfiff.mp hn
  norm_num [floatBubble] at hy

theorem lockFold_all_young (now : ℝ) (tip : Point) :
    ∀ (bs : List Bubble) (acc : ℝ × Option LockedTarget),
      (∀ b ∈ bs, now - b.creationTime < 1500) →
      bs.foldl (lockStep now tip) acc = acc := by
  intro bs
  induction bs with
  | nil => intro acc _; rfl
  | cons e l ih =>
      intro acc hall
      rw [List.foldl_cons]
      have hstep : lockStep now tip acc e = acc := by
        unfold lockStep
        rw [if_pos (hall e (List.mem_cons_self e l))]
      rw [hstep]
      exact ih acc (fun b hb => hall b (List.mem_cons_of_mem e hb))

theorem selectTarget_all_young (now : ℝ) (tip : Point) (bs : List Bubble)
    (hall : ∀ b ∈ bs, now - b.creationTime < 1500) :
    selectTarget now tip bs = none := by
  unfold selectTarget
  rw [lockFold_all_young now tip bs _ hall]

/-- C5: the POINT targeting scan never selects any bubble younger than
1500 ms, so a bubble created at time 0 cannot be the locked target at time
500 and the contact interaction cannot remove it; at time 2000 the same
bubble within fingertip range is selected as the locked target, and a
fast-swipe POINT contact removes it in that tick. -/
theorem point_grace_period :
    (∀ (now : ℝ) (tip : Point) (bs : List Bubble),
      (∀ b ∈ bs, now - b.creationTime < 1500) → selectTarget now tip bs = none) ∧
    (∀ (b : Bubble) (tip : Point), b.creationTime = 0 →
      selectTarget 500 tip [b] = none) ∧
    (∀ (b : Bubble) (tip : Point), b.creationTime = 0 → 0 ≤ b.radius →
      b.radius < 9919 → dist (b.x, b.y) tip < b.radius + 15 →
      selectTarget 2000 tip [b] = some ⟨b.id, b.x, b.y, b.radius⟩ ∧
      ∀ (speed chance w h : ℝ), 10 < speed →
        bubbleTick b true speed chance w h = (none, [.POPPING], [b.theme])) := by
  refine ⟨fun now tip bs hall => selectTarget_all_young now tip bs hall, ?_, ?_⟩
  · intro b tip hct
    refine selectTarget_all_young 500 tip [b] ?_
    intro b2 hb2
    rw [List.mem_singleton] at hb2
    subst hb2
    rw [hct]
    norm_num
  · intro b tip hct hr0 hrB hd
    constructor
    · unfold selectTarget
      simp only [List.foldl_cons, List.foldl_nil]
      have hstep : lockStep 2000 tip ((9999 : ℝ), none) b =
          (dist (b.x, b.y) tip, some ⟨b.id, b.x, b.y, b.radius⟩) := by
        unfold lockStep
        rw [if_neg (by rw [hct]; norm_num)]
        dsimp only
        rw [if_pos ⟨by linarith, by linarith⟩]
      rw [hstep]
    · intro speed chance w h hsp
      exact bubbleTick_removed b speed chance w h .POPPING
        (resolveContact_fast b speed chance hsp)

/-- C5 witness: the concrete bubble created at time 0 with the fingertip
on its center is not targeted at time 500, is targeted at time 2000, and a
speed-20 contact then removes it with a POPPING burst. -/
theorem point_grace_period_witness :
    selectTarget 500 ((0 : ℝ), (0 : ℝ)) [pointBubble] = none ∧
    selectTarget 2000 ((0 : ℝ), (0 : ℝ)) [pointBubble] =
      some ⟨pointBubble.id, pointBubble.x, pointBubble.y, pointBubble.radius⟩ ∧
    bubbleTick pointBubble true 20 0.5 640 480 = (none, [.POPPING], [pointBubble.theme]) := by
  have hdz : dist (pointBubble.x, pointBubble.y) ((0 : ℝ), (0 : ℝ)) = 0 := by
    simp [dist, pointBubble]
  have h3 := point_grace_period.2.2 pointBubble ((0 : ℝ), (0 : ℝ)) rfl
    (by norm_num [pointBubble]) (by norm_num [pointBubble])
    (by rw [hdz]; norm_num [pointBubble])
  exact ⟨point_grace_period.2.1 pointBubble _ rfl, h3.1, h3.2 20 0.5 640 480 (by norm_num)⟩

/-- C8 (code bug evaluation): two coincident just-created trail bubbles
satisfy every condition of the young-trail-pair repulsion branch of
MicroverseCanvas.tsx lines 1810-1817 although their center distance is 0 —
the branch then divides the direction components by 0, so the claimed
distance-zero guard is missing there (the FIST and right-click fields do
guard with dist greater than 0). -/
theorem young_trail_div_zero :
    youngTrailRepelTaken 0 trailBubble1 trailBubble2 ∧
    dist (trailBubble1.x, trailBubble1.y) (trailBubble2.x, trailBubble2.y) = 0 := by
  have hd : dist (trailBubble1.x, trailBubble1.y) (trailBubble2.x, trailBubble2.y) = 0 := by
    simp [dist, trailBubble1, trailBubble2]
  refine ⟨⟨⟨by decide, by decide⟩, ⟨by decide, by decide⟩, ?_, ?_,
    ⟨by decide, by decide⟩, Or.inl (by norm_num [trailBubble1]), ?_, ?_⟩, hd⟩
  · norm_num [trailBubble1, trailBubble2]
  · norm_num [trailBubble1, trailBubble2]
  · rw [hd]
    norm_num [trailBubble1, trailBubble2]
  · rw [hd]
    norm_num [trailBubble1, trailBubble2]

end Paopao
